import Mathlib

/-!
Shallow embedding of the cat/user CRUD backend (repository `Kaspaaro/W2`).

Source files embedded:
* `src/api/controllers/catController.ts` — the cat resource controller;
* the user resource controller (source file with unknown name);
* the DB type declarations (`User`, `UserOutput`, `Cat`, ...);
* `src/api/models/userModel.ts` (mongoose schema, fields only).

Modelling conventions:
* A mongoose collection is a `List` of records; `findById` is `List.find?`
  on the `_id` field, `findByIdAndDelete` removes the first match and
  returns it, `findByIdAndUpdate` applies the request body as a patch to
  the first match and (`new: true`) returns the updated record, `create`
  appends.  Controllers that mutate the store return the new store
  alongside the HTTP outcome (explicit state passing).
* JSON response bodies are association lists `List (String × String)` so
  that presence/absence of a field (`password`, `role`) is statable;
  mongoose `select('-role')` becomes key filtering.
* A handler outcome is `HResult`: `res.json(...)`, an error forwarded to
  `next(new CustomError(message, status))`, or — crucial for the admin
  endpoints — `noResponse` when the handler falls through without
  responding at all.
* `res.locals` values (authenticated principal, resolved coordinates,
  uploaded file) and the aggregated validation-error list produced by the
  `express-validator` collaborator are explicit parameters.
* Geographic coordinates are rationals (`ℚ`): the claims are about
  geometric containment, not float rounding, and the numeric query-string
  components are taken as already-parsed pairs in their textual order.
-/

namespace W2

/-- Modelled from the spec: the `CustomError` class (`src/classes/CustomError`,
not under `src/`) — an error carrying a human-readable message and an HTTP
status code, forwarded to the centralized error responder. -/
structure CustomError where
  message : String
  status : Nat
deriving DecidableEq, Repr

/-- One aggregated validation error from the `express-validator`
collaborator: a message and the offending field (`error.msg`, `error.param`). -/
structure ValidationError where
  msg : String
  param : String
deriving DecidableEq, Repr

/-- The message built by every controller from a non-empty validation error
list: each `"<msg>: <field>"` pair joined by `", "`.  Mirrors
`errors.array().map((error) => ...).join(', ')`. -/
def joinMessages (errors : List ValidationError) : String :=
  String.intercalate ", " (errors.map (fun e => e.msg ++ ": " ++ e.param))

/-- Outcome of one handler invocation: a JSON response, an error forwarded
to `next`, or no response at all (the handler fell through). -/
inductive HResult (α : Type) where
  | json : α → HResult α
  | err : CustomError → HResult α
  | noResponse : HResult α
deriving DecidableEq, Repr

/-- The `{message, data}` envelope (`MessageResponse` in
`src/types/MessageTypes.ts`). -/
structure MessageResponse (α : Type) where
  message : String
  data : α
deriving DecidableEq, Repr

/-- A JSON object, as an association list of fields (value type `String`
suffices for the fields the claims are about). -/
abbrev Json := List (String × String)

/-- Mongoose `select('-f1 -f2')`: drop the excluded keys from a document. -/
def selectExcept (excluded : List String) (j : Json) : Json :=
  j.filter (fun kv => !(excluded.contains kv.1))

/-- A stored user document (`User` in the DB type declarations:
`_id`, `user_name`, `email`, `role`, `password`; the `userModel` schema has
the same fields). -/
structure DBUser where
  _id : String
  user_name : String
  email : String
  password : String
  role : String
deriving DecidableEq, Repr

/-- The JSON rendering of a full user document (all schema fields). -/
def DBUser.toJson (u : DBUser) : Json :=
  [("_id", u._id), ("user_name", u.user_name), ("email", u.email),
   ("password", u.password), ("role", u.role)]

/-- A GeoJSON point: `location: {type, coordinates}` of the `Cat` type.
`coordinates` is `(lng, lat)` in GeoJSON axis order. -/
structure GeoPoint where
  type : String
  lng : ℚ
  lat : ℚ
deriving DecidableEq, Repr

/-- A stored cat document (`Cat` in the DB type declarations); `owner`
holds the owning user's id (the foreign key). -/
structure DBCat where
  _id : String
  cat_name : String
  weight : ℚ
  owner : String
  filename : String
  birthdate : String
  location : GeoPoint
deriving DecidableEq, Repr

/-- Mongoose `findById` on the user collection. -/
def userFindById (id : String) (store : List DBUser) : Option DBUser :=
  store.find? (fun u => u._id == id)

/-- Mongoose `findByIdAndDelete` on the user collection: the removed
document (if any) and the store without it. -/
def userFindByIdAndDelete (id : String) (store : List DBUser) :
    Option DBUser × List DBUser :=
  (userFindById id store, store.eraseP (fun u => u._id == id))

/-- Mongoose `findById` on the cat collection. -/
def catFindById (id : String) (store : List DBCat) : Option DBCat :=
  store.find? (fun c => c._id == id)

/-- Mongoose `findByIdAndDelete` on the cat collection. -/
def catFindByIdAndDelete (id : String) (store : List DBCat) :
    Option DBCat × List DBCat :=
  (catFindById id store, store.eraseP (fun c => c._id == id))

/-- A cat update request body: the fields the client supplies for
`findByIdAndUpdate` (mongoose sets exactly the supplied paths). -/
structure CatPatch where
  cat_name : Option String := none
  weight : Option ℚ := none
  owner : Option String := none
  filename : Option String := none
  birthdate : Option String := none
  location : Option GeoPoint := none
deriving DecidableEq, Repr

/-- Apply an update body to a stored cat (mongoose `$set` of each supplied
path). -/
def applyPatch (p : CatPatch) (c : DBCat) : DBCat :=
  { c with
    cat_name := p.cat_name.getD c.cat_name
    weight := p.weight.getD c.weight
    owner := p.owner.getD c.owner
    filename := p.filename.getD c.filename
    birthdate := p.birthdate.getD c.birthdate
    location := p.location.getD c.location }

/-- Mongoose `findByIdAndUpdate(id, body, {new: true})` on the cat
collection: the updated document (if found) and the updated store. -/
def catFindByIdAndUpdate (id : String) (p : CatPatch) (store : List DBCat) :
    Option DBCat × List DBCat :=
  match catFindById id store with
  | none => (none, store)
  | some c =>
      (some (applyPatch p c),
       store.map (fun x => if x._id == id then applyPatch p x else x))

/-- Mongoose `populate('owner')`: pair the cat with its owner's document
looked up in the user collection (owner expansion as a composed view). -/
def populateOwner (userStore : List DBUser) (c : DBCat) :
    DBCat × Option DBUser :=
  (c, userStore.find? (fun u => u._id == c.owner))

/-- The `'user_name email'` projection used by
`populate('owner', 'user_name email')`. -/
structure OwnerView where
  user_name : String
  email : String
deriving DecidableEq, Repr

/-- Mongoose `populate('owner', 'user_name email')`: owner expansion
restricted to `user_name` and `email`. -/
def populateOwnerNameEmail (userStore : List DBUser) (c : DBCat) :
    DBCat × Option OwnerView :=
  (c, (userStore.find? (fun u => u._id == c.owner)).map
        (fun u => ⟨u.user_name, u.email⟩))

/-! ### User resource controller -/

/-- The request body of `userPost` (`req.body` typed as `User` in the
source: the client may supply any of the `User` fields, including `role`
and an `_id`). -/
structure UserBody where
  _id : Option String := none
  user_name : String
  email : String
  password : String
  role : Option String := none
deriving DecidableEq, Repr

/-- Modelled from the spec: the `bcryptjs` hashing collaborator ("hashes
the supplied password with a randomly generated salt factor").  The salt
produced by `bcrypt.genSalt(10)` is an explicit input; the hash embeds the
bcrypt version/cost prefix, the salt and a digest of the password (the
digest is kept as the password itself so the model stays executable;
the provable facts used are only that the output strictly extends the
password and determines the salt). -/
def bcryptHash (salt : String) (password : String) : String :=
  "$2a$10$" ++ salt ++ "$" ++ password

/-- The document `userPost` hands to `userModel.create`:
`{...user, password: hashPassword, role: 'user'}` — the client body with
the password replaced by its hash and the role forced to `'user'`.
`newId` is the id mongoose generates when the body supplies none. -/
def userPostRecord (body : UserBody) (salt newId : String) : DBUser :=
  { _id := body._id.getD newId
    user_name := body.user_name
    email := body.email
    password := bcryptHash salt body.password
    role := "user" }

/-- The `checkToken` handler: 403 `"token not valid"` when no principal is
attached to `res.locals`, otherwise the `{_id, user_name, email}`
projection of the attached principal.  No database access occurs in the
source, hence no store parameter. -/
def checkToken (user : Option DBUser) : HResult Json :=
  match user with
  | none => .err ⟨"token not valid", 403⟩
  | some u => .json [("_id", u._id), ("user_name", u.user_name), ("email", u.email)]

/-- The `userGet` handler.  The source builds
`new CustomError(joinMessages errors, 400)` on a non-empty validation
error list but neither throws it nor passes it to `next`, so validation
failures have no effect and control falls through to the database query.
The query is `findById(...).select('-role')`. -/
def userGet (errors : List ValidationError) (paramsId : String)
    (userStore : List DBUser) : HResult Json :=
  match userFindById paramsId userStore with
  | none => .err ⟨"No user found", 404⟩
  | some u => .json (selectExcept ["role"] u.toJson)

/-- The `userListGet` handler: `find().select('-role')`.  The source's
`if (!users)` branch is unreachable (mongoose `find` resolves to an array,
never a falsy value) and is omitted. -/
def userListGet (userStore : List DBUser) : HResult (List Json) :=
  .json (userStore.map (fun u => selectExcept ["role"] u.toJson))

/-- The `userPost` handler.  As in `userGet`, the 400 `CustomError` built
from a non-empty validation error list is constructed but never thrown, so
the create is performed regardless.  The created document is
`userPostRecord`; the response data is
`{user_name: result.user_name, email: result.email}`. -/
def userPost (errors : List ValidationError) (body : UserBody)
    (salt newId : String) (userStore : List DBUser) :
    HResult (MessageResponse Json) × List DBUser :=
  let result := userPostRecord body salt newId
  (.json
     { message := "Category created"
       data := [("user_name", result.user_name), ("email", result.email)] },
   userStore ++ [result])

/-- The `userDeleteCurrent` handler.  The source calls
`validationResult(req.body)`: the validation collaborator attaches its
results to the request object, not to the body, so the list read here
(`bodyErrors`) is always empty in a real invocation; it is kept as a
parameter for faithfulness.  On a non-empty list the thrown 400 error is
forwarded unwrapped by `next(error)` (its message is the `join` of the
`undefined` values the block-bodied arrow callback returns).  With no
principal attached the handler 404s; otherwise it deletes by the
principal's id — never inspecting the result — and echoes the principal. -/
def userDeleteCurrent (bodyErrors : List ValidationError)
    (user : Option DBUser) (userStore : List DBUser) :
    HResult (MessageResponse Json) × List DBUser :=
  if bodyErrors.isEmpty = false then
    (.err ⟨String.intercalate ", " (bodyErrors.map (fun _ => "")), 400⟩, userStore)
  else
    match user with
    | none => (.err ⟨"No user found", 404⟩, userStore)
    | some u =>
        (.json
           { message := "User deleted"
             data := [("_id", u._id), ("user_name", u.user_name), ("email", u.email)] },
         (userFindByIdAndDelete u._id userStore).2)

/-! ### Cat resource controller (`src/api/controllers/catController.ts`) -/

/-- A corner coordinate `{lat, lng}` handed to `rectangleBounds`. -/
structure Coord where
  lat : ℚ
  lng : ℚ
deriving DecidableEq, Repr

/-- Modelled from the spec: the `rectangleBounds` utility
(`src/utils/rectangleBounds`, not under `src/`) "constructs an axis-aligned
rectangle geometry from the two corners" — kept as the pair of corners;
containment is the membership test below. -/
structure RectangleBounds where
  topRight : Coord
  bottomLeft : Coord
deriving DecidableEq, Repr

/-- Modelled from the spec: the document store's `$geoWithin` on the
rectangle geometry — "returns all records whose location falls within it",
i.e. containment in the axis-aligned rectangle spanned by the two corners. -/
def RectangleBounds.contains (r : RectangleBounds) (p : Coord) : Bool :=
  r.bottomLeft.lat ≤ p.lat && p.lat ≤ r.topRight.lat &&
  r.bottomLeft.lng ≤ p.lng && p.lng ≤ r.topRight.lng

/-- The `catGetByBoundingBox` handler.  `topRight` and `bottomLeft` are the
two numeric components of the query's `"lat,lng"` strings, in their
textual order: the source destructures `[trLat, trLng] = topRight.split(',')`
and `[blLat, blLng] = bottomLeft.split(',')`, then builds
`rectangleBounds({lng: trLat, lat: trLng}, {lat: blLat, lng: blLng})` —
note the swapped assignment for the top-right corner.  A non-empty
validation error list throws the 400 error, which the handler's own
`catch` rewraps as status 500 with the same message. -/
def catGetByBoundingBox (errors : List ValidationError)
    (topRight bottomLeft : ℚ × ℚ) (catStore : List DBCat) :
    HResult (List DBCat) :=
  if errors.isEmpty = false then .err ⟨joinMessages errors, 500⟩
  else
    let bounds : RectangleBounds :=
      { topRight := { lng := topRight.1, lat := topRight.2 }
        bottomLeft := { lat := bottomLeft.1, lng := bottomLeft.2 } }
    .json (catStore.filter
      (fun c => bounds.contains { lat := c.location.lat, lng := c.location.lng }))

/-- The `catPutAdmin` handler.  Validation failure: thrown 400, rewrapped
to 500 by the local `catch`.  The update runs only inside
`if (res.locals.user.role === 'admin')`; when the principal is not an
admin the handler falls through with no response and no error. -/
def catPutAdmin (errors : List ValidationError) (principal : DBUser)
    (paramsId : String) (body : CatPatch)
    (catStore : List DBCat) (userStore : List DBUser) :
    HResult (MessageResponse (DBCat × Option OwnerView)) × List DBCat :=
  if errors.isEmpty = false then (.err ⟨joinMessages errors, 500⟩, catStore)
  else if principal.role == "admin" then
    match catFindByIdAndUpdate paramsId body catStore with
    | (none, _) => (.err ⟨"No cat found", 404⟩, catStore)
    | (some cat, newStore) =>
        (.json { message := "Cat updated"
                 data := populateOwnerNameEmail userStore cat }, newStore)
  else (.noResponse, catStore)

/-- The `catDeleteAdmin` handler: same admin gate as `catPutAdmin`, same
silent fall-through for non-admins; deletes by id when the gate passes. -/
def catDeleteAdmin (errors : List ValidationError) (principal : DBUser)
    (paramsId : String) (catStore : List DBCat) (userStore : List DBUser) :
    HResult (MessageResponse (DBCat × Option DBUser)) × List DBCat :=
  if errors.isEmpty = false then (.err ⟨joinMessages errors, 500⟩, catStore)
  else if principal.role == "admin" then
    match catFindByIdAndDelete paramsId catStore with
    | (none, _) => (.err ⟨"No cat found", 404⟩, catStore)
    | (some cat, newStore) =>
        (.json { message := "Cat deleted"
                 data := populateOwner userStore cat }, newStore)
  else (.noResponse, catStore)

/-- The `catDelete` handler ("only owner can delete cat").  The source
never reads `res.locals.user`: there is no principal parameter because no
ownership comparison exists; the delete is unconditional. -/
def catDelete (errors : List ValidationError) (paramsId : String)
    (catStore : List DBCat) (userStore : List DBUser) :
    HResult (MessageResponse (DBCat × Option DBUser)) × List DBCat :=
  if errors.isEmpty = false then (.err ⟨joinMessages errors, 500⟩, catStore)
  else
    match catFindByIdAndDelete paramsId catStore with
    | (none, _) => (.err ⟨"No cat found", 404⟩, catStore)
    | (some cat, newStore) =>
        (.json { message := "Cat deleted"
                 data := populateOwner userStore cat }, newStore)

/-- The `catPut` handler ("only owner can update cat").  As with
`catDelete`, the source never reads `res.locals.user`: the update is
unconditional.  The not-found message is the source's `'No species found'`. -/
def catPut (errors : List ValidationError) (paramsId : String)
    (body : CatPatch) (catStore : List DBCat) (userStore : List DBUser) :
    HResult (MessageResponse (DBCat × Option OwnerView)) × List DBCat :=
  if errors.isEmpty = false then (.err ⟨joinMessages errors, 500⟩, catStore)
  else
    match catFindByIdAndUpdate paramsId body catStore with
    | (none, _) => (.err ⟨"No species found", 404⟩, catStore)
    | (some cat, newStore) =>
        (.json { message := "Cat updated"
                 data := populateOwnerNameEmail userStore cat }, newStore)

/-- The uploaded file reference produced by the upload collaborator
(`req.file`). -/
structure UploadedFile where
  filename : String
deriving DecidableEq, Repr

/-- The client body of `catPost` (`req.body` typed as `Cat`): the client
may supply every field, including `owner`, `filename` and `location` —
which the handler overwrites before persisting. -/
structure CatBody where
  cat_name : String
  weight : ℚ
  owner : String
  filename : String
  birthdate : String
  location : GeoPoint
deriving DecidableEq, Repr

/-- The `catPost` handler.  Validation failure: thrown 400, rewrapped to
500 by the local `catch`; a missing `req.file` likewise surfaces as 500
`'file not found'`.  Otherwise the body is mutated —
`location = res.locals.coords`, `owner = res.locals.user._id`,
`filename = req.file.filename` — persisted, populated and returned. -/
def catPost (errors : List ValidationError) (principal : DBUser)
    (coords : GeoPoint) (file : Option UploadedFile) (body : CatBody)
    (newId : String) (catStore : List DBCat) (userStore : List DBUser) :
    HResult (MessageResponse (DBCat × Option DBUser)) × List DBCat :=
  if errors.isEmpty = false then (.err ⟨joinMessages errors, 500⟩, catStore)
  else
    match file with
    | none => (.err ⟨"file not found", 500⟩, catStore)
    | some f =>
        let cat : DBCat :=
          { _id := newId
            cat_name := body.cat_name
            weight := body.weight
            owner := principal._id
            filename := f.filename
            birthdate := body.birthdate
            location := coords }
        (.json { message := "Cat created"
                 data := populateOwner userStore cat }, catStore ++ [cat])

/-! ### Sample data for concrete evaluations -/

/-- A stored user; role `user`, id distinct from `sampleCat`'s owner. -/
def sampleUser : DBUser :=
  { _id := "u1", user_name := "alice", email := "a@x.com",
    password := "$2a$10$T$pw", role := "user" }

/-- A stored cat owned by user id `u2`. -/
def sampleCat : DBCat :=
  { _id := "cat1", cat_name := "Mirri", weight := 4, owner := "u2",
    filename := "mirri.jpg", birthdate := "2020-01-01",
    location := { type := "Point", lng := 24, lat := 60 } }

/-- A `userPost` request body. -/
def sampleBody : UserBody :=
  { user_name := "alice", email := "a@x.com", password := "secret" }

/-! ### Helper lemmas on strings -/

/-- Strings with equal character data are equal. -/
theorem string_data_inj (s t : String) (h : s.data = t.data) : s = t := by
  cases s
  cases t
  simp_all

/-- The hash never equals the plaintext: the bcrypt output strictly
extends the password. -/
theorem bcryptHash_ne_password (s pw : String) : bcryptHash s pw ≠ pw := by
  intro h
  have h' := congrArg String.length h
  simp only [bcryptHash, String.length_append] at h'
  have e1 : ("$2a$10$" : String).length = 7 := rfl
  have e2 : ("$" : String).length = 1 := rfl
  rw [e1, e2] at h'
  omega

/-- The hash determines the salt: equal hashes of the same password come
from equal salts. -/
theorem bcryptHash_salt_inj (s₁ s₂ pw : String)
    (h : bcryptHash s₁ pw = bcryptHash s₂ pw) : s₁ = s₂ := by
  have h' := congrArg String.data h
  simp only [bcryptHash, String.data_append] at h'
  have h2 := List.append_cancel_right h'
  have h3 := List.append_cancel_right h2
  have h4 := List.append_cancel_left h3
  exact string_data_inj _ _ h4

/-! ### Claim theorems -/

/-- C6: every `userPost` request persists a record whose role is `"user"`
regardless of any role supplied in the body, and the success response's
data is exactly the reduced projection `{user_name, email}`, containing
neither a password field nor a role field. -/
theorem userPost_forces_role_and_reduced_data
    (errors : List ValidationError) (body : UserBody) (salt newId : String)
    (userStore : List DBUser) :
    (userPost errors body salt newId userStore).2
        = userStore ++ [userPostRecord body salt newId] ∧
    (userPostRecord body salt newId).role = "user" ∧
    (userPost errors body salt newId userStore).1
        = .json { message := "Category created"
                  data := [("user_name", body.user_name), ("email", body.email)] } ∧
    "password" ∉ [("user_name", body.user_name), ("email", body.email)].map Prod.fst ∧
    "role" ∉ [("user_name", body.user_name), ("email", body.email)].map Prod.fst := by
  refine ⟨rfl, rfl, rfl, ?_, ?_⟩ <;> simp

/-- C7: the password stored by `userPost` is the bcrypt hash, never the
plaintext, and two requests with the same plaintext but distinct generated
salts store distinct hashes. -/
theorem userPost_password_hashing (e₁ e₂ : List ValidationError)
    (b₁ b₂ : UserBody) (s₁ s₂ i₁ i₂ : String) (st₁ st₂ : List DBUser)
    (hpw : b₁.password = b₂.password) (hs : s₁ ≠ s₂) :
    (userPost e₁ b₁ s₁ i₁ st₁).2.getLast? = some (userPostRecord b₁ s₁ i₁) ∧
    (userPost e₂ b₂ s₂ i₂ st₂).2.getLast? = some (userPostRecord b₂ s₂ i₂) ∧
    (userPostRecord b₁ s₁ i₁).password ≠ b₁.password ∧
    (userPostRecord b₁ s₁ i₁).password ≠ (userPostRecord b₂ s₂ i₂).password := by
  refine ⟨by simp [userPost], by simp [userPost],
          bcryptHash_ne_password s₁ b₁.password, ?_⟩
  intro h
  simp only [userPostRecord] at h
  rw [hpw] at h
  exact hs (bcryptHash_salt_inj s₁ s₂ b₂.password h)

/-- Witness for `userPost_password_hashing`: two creates with password
`"secret"` and distinct salts `"SA"`, `"SB"`. -/
theorem userPost_password_hashing_witness :
    (userPost [] sampleBody "SA" "id1" []).2.getLast?
        = some (userPostRecord sampleBody "SA" "id1") ∧
    (userPost [] sampleBody "SB" "id2" []).2.getLast?
        = some (userPostRecord sampleBody "SB" "id2") ∧
    (userPostRecord sampleBody "SA" "id1").password ≠ sampleBody.password ∧
    (userPostRecord sampleBody "SA" "id1").password
        ≠ (userPostRecord sampleBody "SB" "id2").password :=
  userPost_password_hashing [] [] sampleBody sampleBody "SA" "SB" "id1" "id2"
    [] [] rfl (by decide)

/-- C9: `checkToken` fails with the 403 error `"token not valid"` exactly
when no principal is attached, and otherwise returns the
`{_id, user_name, email}` projection of the attached principal (the
embedding has no store parameter: the source performs no database
access). -/
theorem checkToken_forbidden_iff_no_principal (user : Option DBUser) :
    (checkToken user = .err ⟨"token not valid", 403⟩ ↔ user = none) ∧
    ∀ p, user = some p →
      checkToken user
        = .json [("_id", p._id), ("user_name", p.user_name), ("email", p.email)] := by
  cases user with
  | none =>
      refine ⟨by simp [checkToken], ?_⟩
      intro p h
      simp at h
  | some u =>
      refine ⟨by simp [checkToken], ?_⟩
      intro p h
      injection h with h
      subst h
      rfl

/-- Witness for `checkToken_forbidden_iff_no_principal` at a concrete
principal and at the unauthenticated case. -/
theorem checkToken_forbidden_witness :
    checkToken (some sampleUser)
      = .json [("_id", sampleUser._id), ("user_name", sampleUser.user_name),
               ("email", sampleUser.email)] ∧
    checkToken none = .err ⟨"token not valid", 403⟩ :=
  ⟨(checkToken_forbidden_iff_no_principal (some sampleUser)).2 sampleUser rfl,
   (checkToken_forbidden_iff_no_principal none).1.mpr rfl⟩

/-- C10: with a principal attached (and the always-empty error list read
from `req.body`), `userDeleteCurrent` answers the `User deleted` envelope
echoing the principal whatever the store holds — the delete result is
never inspected — and the 404 `No user found` arises exactly from the
no-principal branch. -/
theorem userDeleteCurrent_ignores_delete_result
    (bodyErrors : List ValidationError) (user : Option DBUser)
    (userStore : List DBUser) (he : bodyErrors = []) :
    (∀ p, user = some p →
        userDeleteCurrent bodyErrors user userStore
          = (.json { message := "User deleted"
                     data := [("_id", p._id), ("user_name", p.user_name),
                              ("email", p.email)] },
             (userFindByIdAndDelete p._id userStore).2)) ∧
    (user = none →
        userDeleteCurrent bodyErrors user userStore
          = (.err ⟨"No user found", 404⟩, userStore)) := by
  subst he
  constructor
  · intro p h
    subst h
    rfl
  · intro h
    subst h
    rfl

/-- Witness for `userDeleteCurrent_ignores_delete_result` on the empty
store: no record with the principal's id exists, yet the success envelope
is returned. -/
theorem userDeleteCurrent_witness :
    userDeleteCurrent [] (some sampleUser) []
      = (.json { message := "User deleted"
                 data := [("_id", sampleUser._id), ("user_name", sampleUser.user_name),
                          ("email", sampleUser.email)] },
         (userFindByIdAndDelete sampleUser._id []).2) ∧
    userDeleteCurrent [] none [] = (.err ⟨"No user found", 404⟩, []) :=
  ⟨(userDeleteCurrent_ignores_delete_result [] (some sampleUser) [] rfl).1 sampleUser rfl,
   (userDeleteCurrent_ignores_delete_result [] none [] rfl).2 rfl⟩

/-- Geocoding collaborator output used by the `catPost` samples. -/
def sampleCoords : GeoPoint := { type := "Point", lng := 25, lat := 61 }

/-- A `catPost` client body that adversarially supplies its own `owner`,
`filename` and `location`. -/
def sampleCatBody : CatBody :=
  { cat_name := "Mirri", weight := 4, owner := "attacker",
    filename := "client.jpg", birthdate := "2020-01-01",
    location := { type := "Point", lng := 0, lat := 0 } }

/-- C8: `catPost` persists a record whose owner is the authenticated
principal's id, whose filename is the uploaded file's stored name and
whose location is the geocoder's resolved coordinate — whatever owner,
filename or location the client body supplied. -/
theorem catPost_sets_owner_filename_location (errors : List ValidationError)
    (principal : DBUser) (coords : GeoPoint) (file : Option UploadedFile)
    (body : CatBody) (newId : String) (catStore : List DBCat)
    (userStore : List DBUser) (f : UploadedFile)
    (he : errors = []) (hf : file = some f) :
    (catPost errors principal coords file body newId catStore userStore).2
      = catStore ++
        [{ _id := newId, cat_name := body.cat_name, weight := body.weight,
           owner := principal._id, filename := f.filename,
           birthdate := body.birthdate, location := coords }] ∧
    (catPost errors principal coords file body newId catStore userStore).1
      = .json { message := "Cat created"
                data := populateOwner userStore
                  { _id := newId, cat_name := body.cat_name, weight := body.weight,
                    owner := principal._id, filename := f.filename,
                    birthdate := body.birthdate, location := coords } } := by
  subst he
  subst hf
  exact ⟨rfl, rfl⟩

/-- Witness for `catPost_sets_owner_filename_location`: the client body
supplies owner `"attacker"`, yet the persisted owner is the principal's
id `"u1"`, the filename the upload's `"upload.jpg"`, the location the
geocoder's output. -/
theorem catPost_witness :
    sampleCatBody.owner ≠ sampleUser._id ∧
    ((catPost [] sampleUser sampleCoords (some ⟨"upload.jpg"⟩) sampleCatBody
        "cat9" [] []).2
      = [{ _id := "cat9", cat_name := "Mirri", weight := 4, owner := "u1",
           filename := "upload.jpg", birthdate := "2020-01-01",
           location := sampleCoords }] ∧
    (catPost [] sampleUser sampleCoords (some ⟨"upload.jpg"⟩) sampleCatBody
        "cat9" [] []).1
      = .json { message := "Cat created"
                data := ({ _id := "cat9", cat_name := "Mirri", weight := 4,
                           owner := "u1", filename := "upload.jpg",
                           birthdate := "2020-01-01",
                           location := sampleCoords }, none) }) :=
  ⟨by decide,
   catPost_sets_owner_filename_location [] sampleUser sampleCoords
     (some ⟨"upload.jpg"⟩) sampleCatBody "cat9" [] [] ⟨"upload.jpg"⟩ rfl rfl⟩

/-- C1: counter-evidence — `catDelete` and `catPut` never read the
authenticated principal (their embeddings have no principal parameter
because the source never consults `res.locals.user`): with a principal
whose id differs from the record's owner they still delete/update the
record and answer success, instead of failing with a 403 error. -/
theorem catDelete_catPut_no_ownership_check :
    sampleUser._id ≠ sampleCat.owner ∧
    catDelete [] "cat1" [sampleCat] [sampleUser]
      = (.json { message := "Cat deleted", data := (sampleCat, none) }, []) ∧
    catPut [] "cat1" { cat_name := some "Taken" } [sampleCat] [sampleUser]
      = (.json { message := "Cat updated"
                 data := ({ sampleCat with cat_name := "Taken" }, none) },
         [{ sampleCat with cat_name := "Taken" }]) :=
  ⟨by decide, rfl, rfl⟩

/-- C2: counter-evidence — for a principal whose role is not `admin`,
`catDeleteAdmin` and `catPutAdmin` end with no response and no error
(the silent fall-through), not with an explicit 403 failure; the targeted
record does remain unchanged in the store. -/
theorem catAdmin_silent_noop_for_non_admin :
    sampleUser.role ≠ "admin" ∧
    catDeleteAdmin [] sampleUser "cat1" [sampleCat] [sampleUser]
      = (.noResponse, [sampleCat]) ∧
    catPutAdmin [] sampleUser "cat1" { cat_name := some "X" } [sampleCat] [sampleUser]
      = (.noResponse, [sampleCat]) :=
  ⟨by decide, rfl, rfl⟩

/-- C3: counter-evidence — with a non-empty aggregated validation error
list, `userGet` still performs the lookup and answers the record (its 400
error is constructed but never thrown), `userPost` still performs the
create and answers success, and `catPut` does abort with the joined
`"<msg>: <field>"` message but with status 500: the thrown 400 error is
rewrapped by the handler's own catch-all. -/
theorem validation_errors_not_surfaced_as_400 :
    userGet [⟨"Invalid value", "id"⟩] "u1" [sampleUser]
      = .json (selectExcept ["role"] sampleUser.toJson) ∧
    (userPost [⟨"Invalid value", "email"⟩] sampleBody "SA" "id1" []).2
      = [userPostRecord sampleBody "SA" "id1"] ∧
    (userPost [⟨"Invalid value", "email"⟩] sampleBody "SA" "id1" []).1
      = .json { message := "Category created"
                data := [("user_name", "alice"), ("email", "a@x.com")] } ∧
    catPut [⟨"Invalid value", "weight"⟩] "cat1" {} [sampleCat] [sampleUser]
      = (.err ⟨"Invalid value: weight", 500⟩, [sampleCat]) :=
  ⟨rfl, rfl, rfl, rfl⟩

/-- C4: counter-evidence — `userGet` and `userListGet` project with
`select('-role')` only: the role key is indeed absent from the response,
but the password key is present, carrying the stored hash. -/
theorem userGet_response_contains_password :
    userGet [] "u1" [sampleUser]
      = .json [("_id", "u1"), ("user_name", "alice"), ("email", "a@x.com"),
               ("password", sampleUser.password)] ∧
    (selectExcept ["role"] sampleUser.toJson).lookup "password"
      = some sampleUser.password ∧
    (selectExcept ["role"] sampleUser.toJson).lookup "role" = none ∧
    userListGet [sampleUser] = .json [selectExcept ["role"] sampleUser.toJson] :=
  ⟨rfl, rfl, rfl, rfl⟩

/-- Claim-side predicate, following the claim's words: the point
`(lat, lng)` lies strictly inside the rectangle whose corners are the
query's `"lat,lng"` pairs `topRight` and `bottomLeft`. -/
def strictlyInsideQueryRect (topRight bottomLeft : ℚ × ℚ) (lat lng : ℚ) : Prop :=
  bottomLeft.1 < lat ∧ lat < topRight.1 ∧ bottomLeft.2 < lng ∧ lng < topRight.2

/-- Claim-side predicate: the point lies strictly outside that rectangle. -/
def strictlyOutsideQueryRect (topRight bottomLeft : ℚ × ℚ) (lat lng : ℚ) : Prop :=
  lat < bottomLeft.1 ∨ topRight.1 < lat ∨ lng < bottomLeft.2 ∨ topRight.2 < lng

/-- A cat at latitude 5, longitude 50: strictly inside the query rectangle
with corners (lat 10, lng 60) and (lat 0, lng 0). -/
def insideCat : DBCat :=
  { _id := "cin", cat_name := "Inside", weight := 3, owner := "u2",
    filename := "in.jpg", birthdate := "2021-01-01",
    location := { type := "Point", lng := 50, lat := 5 } }

/-- A cat at latitude 50, longitude 5: strictly outside that rectangle. -/
def outsideCat : DBCat :=
  { _id := "cout", cat_name := "Outside", weight := 3, owner := "u2",
    filename := "out.jpg", birthdate := "2021-01-01",
    location := { type := "Point", lng := 5, lat := 50 } }

/-- C5: counter-evidence — for the query rectangle topRight `"10,60"`,
bottomLeft `"0,0"` (as lat,lng), the cat strictly inside it is excluded
from the result and the cat strictly outside it is returned: the
top-right corner's components are consumed in swapped (lng, lat) order
while the bottom-left corner's are not. -/
theorem catGetByBoundingBox_corner_swap :
    strictlyInsideQueryRect (10, 60) (0, 0) 5 50 ∧
    strictlyOutsideQueryRect (10, 60) (0, 0) 50 5 ∧
    catGetByBoundingBox [] (10, 60) (0, 0) [insideCat, outsideCat]
      = .json [outsideCat] := by
  refine ⟨?_, ?_, ?_⟩
  · norm_num [strictlyInsideQueryRect]
  · norm_num [strictlyOutsideQueryRect]
  · rfl

end W2
